import Mathlib

/-!
Verification development for the DWv2 multi-provider weather resolution and
caching engine.  The definitions below are a shallow embedding of the Python
source:

* `WeatherCache.get` / `WeatherCache.set` embed `src/core/cache.py`
  (class `WeatherCache`); the injected clock `time_func` becomes an explicit
  `now : Rat` argument and the backing dict becomes an association list
  without duplicate keys.
* `LocMemCache.get` / `LocMemCache.set` embed
  `src/django/core/cache/backends/base.py` (class `LocMemCache`).
* `_mmhg_to_hpa`, `YandexWeatherProvider.extract_pressure` embed
  `src/core/providers/yandex.py`; `_kmh_to_ms` embeds
  `src/core/providers/openmeteo.py`.  Python float values are modelled by
  rationals and `round(x, 2)` by `round2` below.
* `WeatherService.tryLocal`, `WeatherService.fetchWithFallback` and
  `WeatherService.getCurrent` embed `src/core/services/weather.py`,
  restricted to the typed adapter outcomes (ProviderError hierarchy) and a
  non-raising freshness probe; `WeatherService.tryLocalExc`,
  `WeatherService.fetchWithFallbackExc` and `WeatherService.getCurrentExc`
  embed the same functions over the full exception space, where adapters
  and the is_fresh probe may also raise exceptions outside that hierarchy
  (ValueError, AttributeError, ...), which those functions do not catch.
* `WeatherServiceBridge.fallbackLoop`, `WeatherServiceBridge.get_weather`,
  `WeatherServiceBridge.serializePoint` and
  `WeatherServiceBridge.deserializePoint` embed
  `src/backend/core/services/weather_service.py`.

Providers and the local station are modelled by the observable behaviour of
one resolution call: the outcome of invoking the adapter once (a point, or
the typed error it raises).  Orchestrator functions additionally return the
trace of provider invocations (each invoked adapter, in order, listed once
per invocation), so that claims about call counts are statable.
-/

/-- Python round(x, 2): rounding to two decimal places, modelled on the
rationals.  Python rounds halves to even while Mathlib rounds halves up; the
two agree away from exact half-way points and both stay within 1/200 of the
argument, which is all the development uses. -/
def round2 (x : ℚ) : ℚ := ((round (100 * x) : ℤ) : ℚ) / 100

/-- Rounding of a coordinate by the format specifier .3f in the cache key of
src/core/services/weather.py, modelled as rounding to three decimals. -/
def round3 (x : ℚ) : ℚ := ((round (1000 * x) : ℤ) : ℚ) / 1000

/-- Rounding of a coordinate by the format specifier .4f in the cache key of
src/backend/core/services/weather_service.py. -/
def round4 (x : ℚ) : ℚ := ((round (10000 * x) : ℤ) : ℚ) / 10000

/-- Lookup in a Python dict modelled as an association list (dicts carry no
duplicate keys): dict.get returns the value at the key, else None. -/
def dictGet {K V : Type} [DecidableEq K] : List (K × V) → K → Option V
  | [], _ => none
  | e :: rest, k => if e.1 = k then some e.2 else dictGet rest k

/-- dict.pop(key, None): the store with the entry at the key removed. -/
def dictPop {K V : Type} [DecidableEq K] (store : List (K × V)) (k : K) :
    List (K × V) :=
  store.filter (fun e => decide (e.1 ≠ k))

/-- Assignment d[key] = value on a Python dict: replace the entry in place
when the key is present (dict keys are unique, so replacing the first
occurrence is replacing the occurrence), append it otherwise. -/
def dictSet {K V : Type} [DecidableEq K] : List (K × V) → K → V → List (K × V)
  | [], k, v => [(k, v)]
  | e :: rest, k, v =>
      if e.1 = k then (k, v) :: rest else e :: dictSet rest k v

/-- WeatherCache storage from src/core/cache.py: key maps to the pair
(expires_at, value), expiry an absolute clock reading. -/
abbrev WeatherCache.Store (K V : Type) := List (K × (ℚ × V))

/-- WeatherCache.get from src/core/cache.py.  The stored item is a pair so
the Python truthiness test `if not item` is exactly the None test.  An entry
whose expiry lies strictly before the read-time clock is popped and reported
absent; the function returns the value (or none) together with the store
after the read. -/
def WeatherCache.get {K V : Type} [DecidableEq K]
    (store : WeatherCache.Store K V) (now : ℚ) (k : K) :
    Option V × WeatherCache.Store K V :=
  match dictGet store k with
  | none => (none, store)
  | some item =>
      if item.1 < now then (none, dictPop store k) else (some item.2, store)

/-- WeatherCache.set from src/core/cache.py: stores (now + ttl, value). -/
def WeatherCache.set {K V : Type} [DecidableEq K]
    (store : WeatherCache.Store K V) (now : ℚ) (k : K) (v : V) (ttl : ℚ) :
    WeatherCache.Store K V :=
  dictSet store k (now + ttl, v)

/-- LocMemCache storage from src/django/core/cache/backends/base.py: key
maps to (value, expires_at), expiry optional (None means no expiry). -/
abbrev LocMemCache.Store (K V : Type) := List (K × (V × Option ℚ))

/-- LocMemCache.get: an entry with an expiry less than or equal to the
read-time clock is popped and the default (here none) returned; an entry
without expiry is always returned. -/
def LocMemCache.get {K V : Type} [DecidableEq K]
    (store : LocMemCache.Store K V) (now : ℚ) (k : K) :
    Option V × LocMemCache.Store K V :=
  match dictGet store k with
  | none => (none, store)
  | some item =>
      match item.2 with
      | some expires_at =>
          if expires_at ≤ now then (none, dictPop store k)
          else (some item.1, store)
      | none => (some item.1, store)

/-- LocMemCache.set: the Python expression
`time.time() + timeout if timeout else None` stores no expiry when the
timeout is falsy, that is None or 0. -/
def LocMemCache.set {K V : Type} [DecidableEq K]
    (store : LocMemCache.Store K V) (now : ℚ) (k : K) (v : V)
    (timeout : Option ℚ) : LocMemCache.Store K V :=
  dictSet store k
    (v, match timeout with
        | none => none
        | some t => if t = 0 then none else some (now + t))

/-- An aware Python datetime, identified by the instant it denotes
(microseconds since the epoch) and its timezone offset in minutes. -/
structure AwareDatetime where
  epochMicro : ℤ
  offsetMin : ℤ
deriving DecidableEq, Repr

/-- datetime.astimezone(timezone.utc): same instant, offset zero. -/
def AwareDatetime.astimezoneUtc (d : AwareDatetime) : AwareDatetime :=
  ⟨d.epochMicro, 0⟩

/-- WeatherPoint from src/core/entities.py (the standalone engine): all
numeric fields are Optional floats. -/
structure CoreWeatherPoint where
  timestamp : AwareDatetime
  temperature_c : Option ℚ
  pressure_hpa : Option ℚ
  wind_speed_ms : Option ℚ
  precipitation_mm : Option ℚ
  source : String
deriving DecidableEq, Repr

/-- WeatherPoint from src/backend/core/abstractions.py (the bridge engine). -/
structure BridgeWeatherPoint where
  latitude : ℚ
  longitude : ℚ
  temperature_c : ℚ
  pressure_hpa : ℚ
  wind_speed_ms : ℚ
  precipitation_mm : ℚ
  source : String
  observed_at : AwareDatetime
deriving DecidableEq, Repr

/-- The dict produced by WeatherServiceBridge._serialize: asdict of the
point with observed_at replaced by its ISO-8601 UTC string.  The ISO string
of a UTC datetime is a lossless encoding of the instant, so it is modelled
here by the instant it denotes. -/
structure SerializedPoint where
  latitude : ℚ
  longitude : ℚ
  temperature_c : ℚ
  pressure_hpa : ℚ
  wind_speed_ms : ℚ
  precipitation_mm : ℚ
  source : String
  observed_at : ℤ
deriving DecidableEq, Repr

/-- WeatherServiceBridge._serialize: convert observed_at to UTC and encode
it as the ISO string (modelled by the UTC instant). -/
def WeatherServiceBridge.serializePoint (p : BridgeWeatherPoint) :
    SerializedPoint :=
  ⟨p.latitude, p.longitude, p.temperature_c, p.pressure_hpa,
   p.wind_speed_ms, p.precipitation_mm, p.source,
   (p.observed_at.astimezoneUtc).epochMicro⟩

/-- WeatherServiceBridge._deserialize: datetime.fromisoformat of the stored
UTC string yields an aware datetime with offset zero denoting the same
instant. -/
def WeatherServiceBridge.deserializePoint (s : SerializedPoint) :
    BridgeWeatherPoint :=
  ⟨s.latitude, s.longitude, s.temperature_c, s.pressure_hpa,
   s.wind_speed_ms, s.precipitation_mm, s.source, ⟨s.observed_at, 0⟩⟩

/-- The function _mmhg_to_hpa of src/core/providers/yandex.py:
round(value * 1.33322, 2) on a present value, None passed through.  The
float literal 1.33322 is modelled by its decimal value. -/
def _mmhg_to_hpa (value : Option ℚ) : Option ℚ :=
  value.map (fun x => round2 (x * (133322 / 100000)))

/-- The function _kmh_to_ms of src/core/providers/openmeteo.py:
round(value / 3.6, 2) on a present value, None passed through. -/
def _kmh_to_ms (value : Option ℚ) : Option ℚ :=
  value.map (fun x => round2 (x / (36 / 10)))

/-- The pressure fields a Yandex payload may carry, each an Optional float
(absent key and non-float value both collapse to none under _safe_float). -/
structure YandexPressurePayload where
  pressure_h_pa : Option ℚ
  pressure_pa : Option ℚ
  pressure_mm : Option ℚ

/-- YandexWeatherProvider._extract_pressure: prefer the (already hPa) field
pressure_h_pa, then pressure_pa converted by round(pa / 100, 2), then
pressure_mm converted by _mmhg_to_hpa. -/
def YandexWeatherProvider.extract_pressure (payload : YandexPressurePayload) :
    Option ℚ :=
  match payload.pressure_h_pa with
  | some v => some v
  | none =>
      match payload.pressure_pa with
      | some pa => some (round2 (pa / 100))
      | none => _mmhg_to_hpa payload.pressure_mm

/-- The typed failures a standalone provider adapter raises, from
src/core/providers/base.py: QuotaExceeded (a subclass of ProviderError,
raised on HTTP 429) and ProviderError (timeouts, transport failures, HTTP
errors and malformed responses are all funnelled into it by the adapters). -/
inductive ProvError where
  | quotaExceeded (msg : String)
  | providerError (msg : String)
deriving DecidableEq, Repr

/-- The aggregate failure the standalone orchestrator raises.  The field
cause models the Python dunder cause of the raised exception: the standalone
raise statement has no from-clause and stands outside every except block, so
the cause there is None. -/
structure AggFailure where
  message : String
  cause : Option ProvError
deriving DecidableEq, Repr

/-- The observable behaviour of one standalone provider adapter during a
single resolution: its identifying source string, whether it exposes the
requested method (callable getattr in _fetch_with_fallback), and the outcome
of invoking it once. -/
structure Provider where
  source : String
  supports : Bool
  result : Except ProvError CoreWeatherPoint

/-- WeatherService._fetch_with_fallback of src/core/services/weather.py,
over the provider tuple as a list.  A provider without the method is skipped
without invocation; QuotaExceeded and ProviderError are both caught and the
loop continues; the first success returns immediately; after the loop a bare
ProviderError with message all-providers-failed is raised.  Returns the
invocation trace (sources of the invoked providers in order) together with
the result. -/
def WeatherService.fetchWithFallback :
    List Provider → List String × Except AggFailure CoreWeatherPoint
  | [] => ([], .error ⟨"all providers failed", none⟩)
  | p :: rest =>
      if p.supports then
        match p.result with
        | .ok pt => ([p.source], .ok pt)
        | .error _ =>
            let r := WeatherService.fetchWithFallback rest
            (p.source :: r.1, r.2)
      else WeatherService.fetchWithFallback rest

/-- The observable behaviour of the optional local station during one
resolution: the is_fresh attribute (none when missing or not callable), and
the current method (none when missing; otherwise the outcome of calling it,
an arbitrary exception modelled by its message). -/
structure LocalStation where
  is_fresh : Option (String → Bool)
  current : Option (Except String CoreWeatherPoint)

/-- Invoking the current method of the station inside the try block of
_try_local: a raised exception is logged and turned into None. -/
def LocalStation.callCurrent (s : LocalStation) : Option CoreWeatherPoint :=
  match s.current with
  | none => none
  | some (.ok pt) => some pt
  | some (.error _) => none

/-- WeatherService._try_local of src/core/services/weather.py for the kind
current: absent station means None; a callable is_fresh returning False
means None; a missing method means None; otherwise the method is invoked
with exceptions swallowed. -/
def WeatherService.tryLocal (station : Option LocalStation) :
    Option CoreWeatherPoint :=
  match station with
  | none => none
  | some s =>
      match s.is_fresh with
      | some f => if f "current" then s.callCurrent else none
      | none => s.callCurrent

/-- The cache key of WeatherService._cache_key: the template
weather:kind:lat:lon(:extra) with coordinates formatted to three decimals.
The formatted string is injective in these components, so the key is
modelled by the components themselves. -/
structure Fingerprint where
  kind : String
  lat3 : ℚ
  lon3 : ℚ
  extra : Option ℤ
deriving DecidableEq, Repr

/-- WeatherService._cache_key of src/core/services/weather.py. -/
def WeatherService.cacheKey (kind : String) (lat lon : ℚ) (extra : Option ℤ) :
    Fingerprint :=
  ⟨kind, round3 lat, round3 lon, extra⟩

/-- CURRENT_TTL of src/core/services/weather.py: 10 minutes in seconds. -/
def WeatherService.CURRENT_TTL : ℚ := 10 * 60

/-- The standalone WeatherService configuration: optional local station and
the fixed provider pair (primary, fallback) tried in that order. -/
structure WeatherService where
  local_station : Option LocalStation
  primary : Provider
  fallback : Provider

/-- The cache store of the standalone service. -/
abbrev CoreStore := WeatherCache.Store Fingerprint CoreWeatherPoint

/-- WeatherService.get_current of src/core/services/weather.py: local
override first, then cache lookup, then the fallback chain with a cache
write on success.  One clock reading serves the whole call.  Returns the
result, the cache store after the call, and the trace of remote provider
invocations. -/
def WeatherService.getCurrent (svc : WeatherService) (store : CoreStore)
    (now : ℚ) (lat lon : ℚ) :
    Except AggFailure CoreWeatherPoint × CoreStore × List String :=
  match WeatherService.tryLocal svc.local_station with
  | some pt => (.ok pt, store, [])
  | none =>
      let key := WeatherService.cacheKey "current" lat lon none
      let g := WeatherCache.get store now key
      match g.1 with
      | some pt => (.ok pt, g.2, [])
      | none =>
          let r := WeatherService.fetchWithFallback [svc.primary, svc.fallback]
          match r.2 with
          | .ok pt =>
              (.ok pt, WeatherCache.set g.2 now key pt
                WeatherService.CURRENT_TTL, r.1)
          | .error e => (.error e, g.2, r.1)

/-- The aggregate failure of the bridge orchestrator
(WeatherServiceError in src/backend/core/services/weather_service.py).  Its
cause field models the from-clause of the raise statement: the first
collected provider error when one exists.  Provider failures there are
arbitrary exceptions, modelled by their message. -/
structure WeatherServiceError where
  message : String
  cause : Option String
deriving DecidableEq, Repr

/-- The observable behaviour of one bridge provider during a resolution:
its name and the outcome of get_weather (any raised exception modelled by
its message, since the bridge catches every Exception). -/
structure BridgeProvider where
  name : String
  result : Except String BridgeWeatherPoint

/-- The provider loop of WeatherServiceBridge.get_weather: every exception
is caught, appended to the errors list and the loop continues; the first
success returns immediately; when the loop completes, WeatherServiceError is
raised from errors[0] if errors else None.  The cache write performed on the
success branch is lifted to the caller (get_weather below), which preserves
the observable behaviour because the loop returns right after it.  Returns
the invocation trace and the result. -/
def WeatherServiceBridge.fallbackLoop (errs : List String) :
    List BridgeProvider → List String × Except WeatherServiceError BridgeWeatherPoint
  | [] => ([], .error ⟨"All weather providers failed", errs.head?⟩)
  | p :: rest =>
      match p.result with
      | .ok pt => ([p.name], .ok pt)
      | .error e =>
          let r := WeatherServiceBridge.fallbackLoop (errs ++ [e]) rest
          (p.name :: r.1, r.2)

/-- The cache key template weather:lat:lon of the bridge, coordinates
formatted to four decimals; modelled by the rounded components. -/
structure BridgeKey where
  lat4 : ℚ
  lon4 : ℚ
deriving DecidableEq, Repr

/-- The bridge cache store: LocMemCache holding serialized points. -/
abbrev BridgeStore := LocMemCache.Store BridgeKey SerializedPoint

/-- WeatherServiceBridge.get_weather of
src/backend/core/services/weather_service.py: cache lookup (a cached
payload is a non-empty dict, hence truthy exactly when present), then the
provider loop, with the serialized point written to the cache under the
configured ttl on first success.  Returns the result, the cache store after
the call, and the provider invocation trace. -/
def WeatherServiceBridge.get_weather (providers : List BridgeProvider)
    (cache : BridgeStore) (ttl : ℚ) (now : ℚ) (lat lon : ℚ) :
    Except WeatherServiceError BridgeWeatherPoint × BridgeStore × List String :=
  let key : BridgeKey := ⟨round4 lat, round4 lon⟩
  let g := LocMemCache.get cache now key
  match g.1 with
  | some payload => (.ok (WeatherServiceBridge.deserializePoint payload), g.2, [])
  | none =>
      let r := WeatherServiceBridge.fallbackLoop [] providers
      match r.2 with
      | .ok pt =>
          (.ok pt, LocMemCache.set g.2 now key
            (WeatherServiceBridge.serializePoint pt) (some ttl), r.1)
      | .error e => (.error e, g.2, r.1)

/-- The error a bridge provider contributes to the errors list of
get_weather during one resolution: its raised exception, when it fails. -/
def BridgeProvider.errMsg (p : BridgeProvider) : Option String :=
  match p.result with
  | .ok _ => none
  | .error e => some e

/-- The full exception space of a standalone adapter call.  Besides the
typed failures QuotaExceeded and ProviderError of
src/core/providers/base.py, an adapter body can raise exceptions outside
the ProviderError hierarchy on malformed-but-parseable payloads: for
example int(obs_time) in YandexWeatherProvider._extract_timestamp
(src/core/providers/yandex.py line 102) raises ValueError on a non-numeric
obs_time, datetime.fromisoformat in OpenMeteoProvider._parse_time
(src/core/providers/openmeteo.py) raises ValueError on a malformed time
string, and attribute access on a non-dict JSON top level raises
AttributeError.  Such exceptions are recorded with their class name and
message. -/
inductive PyExc where
  | quotaExceeded (msg : String)
  | providerError (msg : String)
  | otherExc (kind msg : String)
deriving DecidableEq, Repr

/-- Whether the exception lies in the ProviderError hierarchy
(QuotaExceeded subclasses ProviderError), that is, whether one of the two
except clauses of WeatherService._fetch_with_fallback matches it. -/
def PyExc.isProviderError : PyExc → Bool
  | .quotaExceeded _ => true
  | .providerError _ => true
  | .otherExc _ _ => false

/-- A standalone provider adapter over the full exception space: source
string, whether the requested method exists, and the outcome of one
invocation — a point or any raised exception. -/
structure PyProvider where
  source : String
  supports : Bool
  result : Except PyExc CoreWeatherPoint

/-- WeatherService._fetch_with_fallback of src/core/services/weather.py
over the full exception space.  The two except clauses catch QuotaExceeded
and ProviderError and continue with the next provider; an exception outside
that hierarchy is not matched and propagates out of the loop at once, so no
later provider is invoked and the aggregate error is never reached.  The
restriction of this function to adapters whose failures stay inside the
ProviderError hierarchy is WeatherService.fetchWithFallback above. -/
def WeatherService.fetchWithFallbackExc :
    List PyProvider → List String × Except PyExc CoreWeatherPoint
  | [] => ([], .error (.providerError "all providers failed"))
  | p :: rest =>
      if p.supports then
        match p.result with
        | .ok pt => ([p.source], .ok pt)
        | .error e =>
            if e.isProviderError then
              let r := WeatherService.fetchWithFallbackExc rest
              (p.source :: r.1, r.2)
            else ([p.source], .error e)
      else WeatherService.fetchWithFallbackExc rest

/-- The local gate over the full exception space.  Calling is_fresh may
itself raise (its body is arbitrary gate code), which matters because
_try_local invokes it outside the try block; the current method may raise
as well, inside the try block.  The restriction to a non-raising is_fresh
is LocalStation above. -/
structure PyLocalStation where
  is_fresh : Option (String → Except PyExc Bool)
  current : Option (Except PyExc CoreWeatherPoint)

/-- Invoking the current method of the station inside the try block of
_try_local: a raised exception is logged and turned into None. -/
def PyLocalStation.callCurrent (s : PyLocalStation) : Option CoreWeatherPoint :=
  match s.current with
  | none => none
  | some (.ok pt) => some pt
  | some (.error _) => none

/-- WeatherService._try_local of src/core/services/weather.py over the full
exception space, for the kind current.  The call is_fresh(method_name) at
line 72 stands outside the try block of lines 77 to 81, so an exception it
raises propagates (the error case below); only the method invocation itself
is guarded, with its exceptions swallowed to None. -/
def WeatherService.tryLocalExc (station : Option PyLocalStation) :
    Except PyExc (Option CoreWeatherPoint) :=
  match station with
  | none => .ok none
  | some s =>
      match s.is_fresh with
      | some f =>
          match f "current" with
          | .error e => .error e
          | .ok b => if b then .ok s.callCurrent else .ok none
      | none => .ok s.callCurrent

/-- The standalone service configuration over the full exception space. -/
structure WeatherServiceExc where
  local_station : Option PyLocalStation
  primary : PyProvider
  fallback : PyProvider

/-- WeatherService.get_current of src/core/services/weather.py over the
full exception space: an exception escaping _try_local (a raising is_fresh)
or the fallback loop (an adapter exception outside the ProviderError
hierarchy) propagates out of get_current, which has no handler of its own;
otherwise the flow is the one of getCurrent above.  Returns the outcome,
the cache store after the call, and the trace of provider invocations. -/
def WeatherService.getCurrentExc (svc : WeatherServiceExc) (store : CoreStore)
    (now lat lon : ℚ) :
    Except PyExc CoreWeatherPoint × CoreStore × List String :=
  match WeatherService.tryLocalExc svc.local_station with
  | .error e => (.error e, store, [])
  | .ok (some pt) => (.ok pt, store, [])
  | .ok none =>
      let key := WeatherService.cacheKey "current" lat lon none
      let g := WeatherCache.get store now key
      match g.1 with
      | some pt => (.ok pt, g.2, [])
      | none =>
          let r := WeatherService.fetchWithFallbackExc
            [svc.primary, svc.fallback]
          match r.2 with
          | .ok pt =>
              (.ok pt, WeatherCache.set g.2 now key pt
                WeatherService.CURRENT_TTL, r.1)
          | .error e => (.error e, g.2, r.1)

/-- Rounding to two decimals moves a rational by at most 1/200. -/
lemma round2_close (x : ℚ) : |round2 x - x| ≤ 1 / 200 := by
  have h := abs_sub_round (100 * x)
  have e : round2 x - x = -((100 * x - ((round (100 * x) : ℤ) : ℚ)) / 100) := by
    unfold round2; ring
  rw [e, abs_neg, abs_div, abs_of_pos (show (0 : ℚ) < 100 by norm_num)]
  calc |100 * x - ((round (100 * x) : ℤ) : ℚ)| / 100
      ≤ (1 / 2) / 100 := by
        exact div_le_div_of_nonneg_right h (by norm_num)
    _ = 1 / 200 := by norm_num

/-- Reading back the key just written returns the written value. -/
lemma dictGet_dictSet_self {K V : Type} [DecidableEq K]
    (store : List (K × V)) (k : K) (v : V) :
    dictGet (dictSet store k v) k = some v := by
  induction store with
  | nil => simp [dictSet, dictGet]
  | cons e rest ih =>
      by_cases h : e.1 = k
      · simp [dictSet, dictGet, h]
      · simp [dictSet, dictGet, h, ih]

/-- After a pop, the key is absent. -/
lemma dictGet_dictPop_self {K V : Type} [DecidableEq K]
    (store : List (K × V)) (k : K) :
    dictGet (dictPop store k) k = none := by
  induction store with
  | nil => rfl
  | cons e rest ih =>
      by_cases h : e.1 = k
      · simpa [dictPop, List.filter, h] using ih
      · simpa [dictPop, List.filter, h, dictGet] using ih

/-- A supported provider that fails is invoked and the loop moves on: the
outcome over the remaining list is untouched and the failing provider is
recorded once at the head of the trace. -/
lemma fetchWithFallback_skip (p : Provider) (rest : List Provider) (e : ProvError)
    (hsup : p.supports = true) (he : p.result = .error e) :
    WeatherService.fetchWithFallback (p :: rest) =
      (p.source :: (WeatherService.fetchWithFallback rest).1,
       (WeatherService.fetchWithFallback rest).2) := by
  simp [WeatherService.fetchWithFallback, hsup, he]

/-- A prefix of supported, failing providers contributes exactly its sources
to the trace and leaves the outcome to the remaining list. -/
lemma fetchWithFallback_fail_leading (pre : List Provider) (rest : List Provider)
    (h : ∀ p ∈ pre, p.supports = true ∧ ∃ e, p.result = .error e) :
    WeatherService.fetchWithFallback (pre ++ rest) =
      (pre.map Provider.source ++ (WeatherService.fetchWithFallback rest).1,
       (WeatherService.fetchWithFallback rest).2) := by
  induction pre with
  | nil => simp
  | cons p pre ih =>
      obtain ⟨hsup, e, he⟩ := h p (List.mem_cons_self p pre)
      have ih2 := ih (fun q hq => h q (List.mem_cons_of_mem p hq))
      simp [List.cons_append, fetchWithFallback_skip p (pre ++ rest) e hsup he,
        ih2]

/-- A supported provider that succeeds ends the loop at once with its point
and a one-entry trace. -/
lemma fetchWithFallback_first_success (p : Provider) (rest : List Provider)
    (pt : CoreWeatherPoint) (hsup : p.supports = true)
    (hok : p.result = .ok pt) :
    WeatherService.fetchWithFallback (p :: rest) = ([p.source], .ok pt) := by
  simp [WeatherService.fetchWithFallback, hsup, hok]

/-- The only error the standalone fallback loop ever produces is the bare
aggregate one: message all-providers-failed, no recorded cause. -/
lemma fetchWithFallback_error_inv (providers : List Provider) (f : AggFailure)
    (h : (WeatherService.fetchWithFallback providers).2 = .error f) :
    f = ⟨"all providers failed", none⟩ := by
  induction providers with
  | nil =>
      simp [WeatherService.fetchWithFallback] at h
      exact h.symm
  | cons p rest ih =>
      by_cases hsup : p.supports = true
      · cases hres : p.result with
        | ok pt =>
            rw [fetchWithFallback_first_success p rest pt hsup hres] at h
            simp at h
        | error e =>
            rw [fetchWithFallback_skip p rest e hsup hres] at h
            exact ih h
      · simp only [WeatherService.fetchWithFallback, if_neg hsup] at h
        exact ih h

/-- A failing bridge provider is invoked, its exception is appended to the
errors list, and the loop moves on. -/
lemma fallbackLoop_skip (p : BridgeProvider) (rest : List BridgeProvider)
    (errs : List String) (e : String) (he : p.result = .error e) :
    WeatherServiceBridge.fallbackLoop errs (p :: rest) =
      (p.name :: (WeatherServiceBridge.fallbackLoop (errs ++ [e]) rest).1,
       (WeatherServiceBridge.fallbackLoop (errs ++ [e]) rest).2) := by
  simp [WeatherServiceBridge.fallbackLoop, he]

/-- A succeeding bridge provider ends the loop at once. -/
lemma fallbackLoop_first_success (p : BridgeProvider)
    (rest : List BridgeProvider) (errs : List String)
    (pt : BridgeWeatherPoint) (hok : p.result = .ok pt) :
    WeatherServiceBridge.fallbackLoop errs (p :: rest) = ([p.name], .ok pt) := by
  simp [WeatherServiceBridge.fallbackLoop, hok]

/-- The only error the bridge loop ever produces is the aggregate one, and
its recorded cause is the head of the accumulated error list: the exception
of the first failing provider. -/
lemma fallbackLoop_error_inv (providers : List BridgeProvider)
    (errs : List String) (f : WeatherServiceError)
    (h : (WeatherServiceBridge.fallbackLoop errs providers).2 = .error f) :
    f = ⟨"All weather providers failed",
         (errs ++ providers.filterMap BridgeProvider.errMsg).head?⟩ := by
  induction providers generalizing errs with
  | nil =>
      simp [WeatherServiceBridge.fallbackLoop] at h
      simpa using h.symm
  | cons p rest ih =>
      cases hres : p.result with
      | ok pt =>
          rw [fallbackLoop_first_success p rest errs pt hres] at h
          simp at h
      | error e =>
          rw [fallbackLoop_skip p rest errs e hres] at h
          have := ih (errs ++ [e]) h
          simpa [BridgeProvider.errMsg, hres, List.filterMap_cons] using this

/-- When every bridge provider fails, the loop produces the aggregate error
whose cause is the first accumulated exception. -/
lemma fallbackLoop_all_fail (providers : List BridgeProvider)
    (errs : List String)
    (h : ∀ p ∈ providers, ∃ e, p.result = .error e) :
    (WeatherServiceBridge.fallbackLoop errs providers).2 =
      .error ⟨"All weather providers failed",
              (errs ++ providers.filterMap BridgeProvider.errMsg).head?⟩ := by
  induction providers generalizing errs with
  | nil => simp [WeatherServiceBridge.fallbackLoop]
  | cons p rest ih =>
      obtain ⟨e, he⟩ := h p (List.mem_cons_self p rest)
      rw [fallbackLoop_skip p rest errs e he]
      have := ih (errs ++ [e]) (fun q hq => h q (List.mem_cons_of_mem p hq))
      simpa [BridgeProvider.errMsg, he, List.filterMap_cons] using this

/-- A station whose current method raises is treated as absent local data. -/
lemma tryLocal_error (s : LocalStation) (e : String)
    (hc : s.current = some (.error e)) :
    WeatherService.tryLocal (some s) = none := by
  have hcall : s.callCurrent = none := by
    unfold LocalStation.callCurrent
    rw [hc]
  cases hf : s.is_fresh with
  | none => simp [WeatherService.tryLocal, hf, hcall]
  | some f =>
      by_cases hfc : f "current" <;>
        simp [WeatherService.tryLocal, hf, hfc, hcall]

/-- A LocMemCache read that produces a value leaves the store untouched. -/
lemma LocMemCache.get_hit_store {K V : Type} [DecidableEq K]
    (store : LocMemCache.Store K V) (now : ℚ) (k : K) (v : V)
    (h : (LocMemCache.get store now k).1 = some v) :
    LocMemCache.get store now k = (some v, store) := by
  unfold LocMemCache.get at h ⊢
  cases hd : dictGet store k with
  | none => simp_all
  | some item =>
      cases hexp : item.2 with
      | none => simp_all
      | some e =>
          by_cases hle : e ≤ now
          · simp_all
          · simp_all

/-- With no fresh local data and an unexpired cache entry under the request
fingerprint, get_current returns the cached point, leaves the store alone
and invokes no provider. -/
lemma getCurrent_cache_hit (svc : WeatherService) (store : CoreStore)
    (now lat lon e : ℚ) (pt : CoreWeatherPoint)
    (hl : WeatherService.tryLocal svc.local_station = none)
    (hg : dictGet store (WeatherService.cacheKey "current" lat lon none) =
      some (e, pt))
    (hfresh : ¬ e < now) :
    WeatherService.getCurrent svc store now lat lon = (.ok pt, store, []) := by
  unfold WeatherService.getCurrent
  rw [hl]
  simp [WeatherCache.get, hg, hfresh]

/-- With no fresh local data, a cache miss and a succeeding primary
provider, get_current returns the primary point, writes it to the cache
under the current ttl, and invokes exactly the primary provider. -/
lemma getCurrent_miss_primary_ok (svc : WeatherService) (store : CoreStore)
    (now lat lon : ℚ) (pt : CoreWeatherPoint)
    (hl : WeatherService.tryLocal svc.local_station = none)
    (hmiss : dictGet store (WeatherService.cacheKey "current" lat lon none) =
      none)
    (hsup : svc.primary.supports = true)
    (hok : svc.primary.result = .ok pt) :
    WeatherService.getCurrent svc store now lat lon =
      (.ok pt,
       WeatherCache.set store now
         (WeatherService.cacheKey "current" lat lon none) pt
         WeatherService.CURRENT_TTL,
       [svc.primary.source]) := by
  unfold WeatherService.getCurrent
  rw [hl]
  rw [fetchWithFallback_first_success svc.primary [svc.fallback] pt hsup hok]
  simp [WeatherCache.get, hmiss]

/-- A provider that fails or lacks the method leaves the loop outcome to
the remaining providers. -/
lemma fetchWithFallback_fail_any (p : Provider) (rest : List Provider)
    (hp : p.supports = false ∨ ∃ e, p.result = .error e) :
    (WeatherService.fetchWithFallback (p :: rest)).2 =
      (WeatherService.fetchWithFallback rest).2 := by
  rcases hp with hp | ⟨e, he⟩
  · simp [WeatherService.fetchWithFallback, hp]
  · by_cases hps : p.supports = true
    · rw [fetchWithFallback_skip p rest e hps he]
    · simp [WeatherService.fetchWithFallback, if_neg hps]

/-- When both configured standalone providers fail (or lack the method),
the fallback pair produces the bare aggregate error. -/
lemma fetchPair_all_fail (p q : Provider)
    (hp : p.supports = false ∨ ∃ e, p.result = .error e)
    (hq : q.supports = false ∨ ∃ e, q.result = .error e) :
    (WeatherService.fetchWithFallback [p, q]).2 =
      .error ⟨"all providers failed", none⟩ := by
  rw [fetchWithFallback_fail_any p [q] hp, fetchWithFallback_fail_any q [] hq]
  rfl

/-- A read that does not discover an expired entry leaves the WeatherCache
store unchanged. -/
lemma WeatherCache.get_store_noexp {K V : Type} [DecidableEq K]
    (store : WeatherCache.Store K V) (now : ℚ) (k : K)
    (h : ∀ e v, dictGet store k = some (e, v) → ¬ e < now) :
    (WeatherCache.get store now k).2 = store := by
  unfold WeatherCache.get
  cases hd : dictGet store k with
  | none => rfl
  | some item =>
      have hne := h item.1 item.2 (by rw [hd])
      simp [hne]

/-- With no fresh local data, a cache miss and both providers failing,
get_current produces the bare aggregate error and its store is exactly the
store left by the lookup (no write happens). -/
lemma getCurrent_all_fail (svc : WeatherService) (store : CoreStore)
    (now lat lon : ℚ)
    (hl : WeatherService.tryLocal svc.local_station = none)
    (hmiss : (WeatherCache.get store now
      (WeatherService.cacheKey "current" lat lon none)).1 = none)
    (hp : svc.primary.supports = false ∨ ∃ e, svc.primary.result = .error e)
    (hq : svc.fallback.supports = false ∨ ∃ e, svc.fallback.result = .error e) :
    (WeatherService.getCurrent svc store now lat lon).1 =
      .error ⟨"all providers failed", none⟩ ∧
    (WeatherService.getCurrent svc store now lat lon).2.1 =
      (WeatherCache.get store now
        (WeatherService.cacheKey "current" lat lon none)).2 := by
  have hfail := fetchPair_all_fail svc.primary svc.fallback hp hq
  unfold WeatherService.getCurrent
  rw [hl]
  simp [hmiss, hfail]

/-- A bridge cache hit returns the deserialized payload, leaves the cache
store alone and invokes no provider. -/
lemma get_weather_cache_hit (providers : List BridgeProvider)
    (cache : BridgeStore) (ttl now lat lon : ℚ) (payload : SerializedPoint)
    (h : (LocMemCache.get cache now ⟨round4 lat, round4 lon⟩).1 =
      some payload) :
    WeatherServiceBridge.get_weather providers cache ttl now lat lon =
      (.ok (WeatherServiceBridge.deserializePoint payload), cache, []) := by
  have h2 := LocMemCache.get_hit_store cache now ⟨round4 lat, round4 lon⟩
    payload h
  unfold WeatherServiceBridge.get_weather
  simp [h2]

/-- On a bridge cache miss with a failing provider loop, get_weather
returns the loop error, keeps the store left by the lookup and records the
loop trace. -/
lemma get_weather_miss_err (providers : List BridgeProvider)
    (cache : BridgeStore) (ttl now lat lon : ℚ) (f : WeatherServiceError)
    (hmiss : (LocMemCache.get cache now ⟨round4 lat, round4 lon⟩).1 = none)
    (herr : (WeatherServiceBridge.fallbackLoop [] providers).2 = .error f) :
    WeatherServiceBridge.get_weather providers cache ttl now lat lon =
      (.error f,
       (LocMemCache.get cache now ⟨round4 lat, round4 lon⟩).2,
       (WeatherServiceBridge.fallbackLoop [] providers).1) := by
  unfold WeatherServiceBridge.get_weather
  simp only [hmiss, herr]

/-- A prefix of failing bridge providers followed by a success: the loop
returns the succeeding point with each prefix provider invoked once, then
the succeeding one, whatever errors were already accumulated. -/
lemma fallbackLoop_fail_prefix_success (pre post : List BridgeProvider)
    (succ : BridgeProvider) (pt : BridgeWeatherPoint)
    (h : ∀ p ∈ pre, ∃ e, p.result = .error e)
    (hok : succ.result = .ok pt) :
    ∀ errs, WeatherServiceBridge.fallbackLoop errs (pre ++ succ :: post) =
      (pre.map BridgeProvider.name ++ [succ.name], .ok pt) := by
  induction pre with
  | nil =>
      intro errs
      simpa using fallbackLoop_first_success succ post errs pt hok
  | cons p rest ih =>
      intro errs
      obtain ⟨e, he⟩ := h p (List.mem_cons_self p rest)
      rw [List.cons_append, fallbackLoop_skip p (rest ++ succ :: post) errs e he,
          ih (fun q hq => h q (List.mem_cons_of_mem p hq)) (errs ++ [e])]
      simp

/-- Claim C1: in both orchestrators, when a prefix of providers fails with
quota, transient or malformed errors and the next provider returns a point,
the loop returns that point, every provider up to and including the first
success is invoked exactly once and in order, and no later provider is
invoked. -/
theorem claim_C1_first_success_wins :
    (∀ (pre post : List Provider) (succ : Provider) (pt : CoreWeatherPoint),
      (∀ p ∈ pre, p.supports = true ∧ ∃ e, p.result = .error e) →
      succ.supports = true → succ.result = .ok pt →
      WeatherService.fetchWithFallback (pre ++ succ :: post) =
        (pre.map Provider.source ++ [succ.source], .ok pt)) ∧
    (∀ (pre post : List BridgeProvider) (succ : BridgeProvider)
        (pt : BridgeWeatherPoint) (errs : List String),
      (∀ p ∈ pre, ∃ e, p.result = .error e) →
      succ.result = .ok pt →
      WeatherServiceBridge.fallbackLoop errs (pre ++ succ :: post) =
        (pre.map BridgeProvider.name ++ [succ.name], .ok pt)) := by
  constructor
  · intro pre post succ pt hpre hsup hok
    rw [fetchWithFallback_fail_leading pre (succ :: post) hpre,
        fetchWithFallback_first_success succ post pt hsup hok]
  · intro pre post succ pt errs hpre hok
    exact fallbackLoop_fail_prefix_success pre post succ pt hpre hok errs

/-- Witness for C1: a quota-failing first provider followed by a succeeding
second one, in both orchestrators. -/
theorem claim_C1_witness :
    WeatherService.fetchWithFallback
        ([⟨"a", true, .error (.quotaExceeded "q")⟩] ++
          ⟨"b", true, .ok ⟨⟨0, 0⟩, none, none, none, none, "b"⟩⟩ :: []) =
      (["a", "b"], .ok ⟨⟨0, 0⟩, none, none, none, none, "b"⟩) ∧
    WeatherServiceBridge.fallbackLoop []
        ([⟨"x", .error "boom"⟩] ++
          ⟨"y", .ok ⟨0, 0, 0, 0, 0, 0, "y", ⟨0, 0⟩⟩⟩ :: []) =
      (["x", "y"], .ok ⟨0, 0, 0, 0, 0, 0, "y", ⟨0, 0⟩⟩) := by
  constructor
  · exact claim_C1_first_success_wins.1
      [⟨"a", true, .error (.quotaExceeded "q")⟩] []
      ⟨"b", true, .ok ⟨⟨0, 0⟩, none, none, none, none, "b"⟩⟩ _
      (by
        intro p hp
        rw [List.mem_singleton] at hp
        subst hp
        exact ⟨rfl, ⟨.quotaExceeded "q", rfl⟩⟩)
      rfl rfl
  · exact claim_C1_first_success_wins.2
      [⟨"x", .error "boom"⟩] []
      ⟨"y", .ok ⟨0, 0, 0, 0, 0, 0, "y", ⟨0, 0⟩⟩⟩ _ []
      (by
        intro p hp
        rw [List.mem_singleton] at hp
        subst hp
        exact ⟨"boom", rfl⟩)
      rfl

/-- Claim C2: with no fresh local override, a non-expired cache entry under
the request fingerprint is returned with no provider invoked, in both
orchestrators; consequently two standalone resolutions for the same
fingerprint within the ttl invoke a provider exactly once. -/
theorem claim_C2_cache_hit_no_outbound :
    (∀ (svc : WeatherService) (store : CoreStore) (now lat lon e : ℚ)
        (pt : CoreWeatherPoint),
      WeatherService.tryLocal svc.local_station = none →
      dictGet store (WeatherService.cacheKey "current" lat lon none) =
        some (e, pt) →
      ¬ e < now →
      WeatherService.getCurrent svc store now lat lon = (.ok pt, store, [])) ∧
    (∀ (svc : WeatherService) (store : CoreStore) (now₁ now₂ lat lon : ℚ)
        (pt : CoreWeatherPoint),
      WeatherService.tryLocal svc.local_station = none →
      dictGet store (WeatherService.cacheKey "current" lat lon none) = none →
      svc.primary.supports = true → svc.primary.result = .ok pt →
      ¬ now₁ + WeatherService.CURRENT_TTL < now₂ →
      WeatherService.getCurrent svc store now₁ lat lon =
        (.ok pt,
         WeatherCache.set store now₁
           (WeatherService.cacheKey "current" lat lon none) pt
           WeatherService.CURRENT_TTL,
         [svc.primary.source]) ∧
      WeatherService.getCurrent svc
          (WeatherCache.set store now₁
            (WeatherService.cacheKey "current" lat lon none) pt
            WeatherService.CURRENT_TTL) now₂ lat lon =
        (.ok pt,
         WeatherCache.set store now₁
           (WeatherService.cacheKey "current" lat lon none) pt
           WeatherService.CURRENT_TTL,
         [])) ∧
    (∀ (providers : List BridgeProvider) (cache : BridgeStore)
        (ttl now lat lon : ℚ) (payload : SerializedPoint),
      (LocMemCache.get cache now ⟨round4 lat, round4 lon⟩).1 = some payload →
      WeatherServiceBridge.get_weather providers cache ttl now lat lon =
        (.ok (WeatherServiceBridge.deserializePoint payload), cache, [])) := by
  refine ⟨?_, ?_, ?_⟩
  · intro svc store now lat lon e pt hl hg hfresh
    exact getCurrent_cache_hit svc store now lat lon e pt hl hg hfresh
  · intro svc store now₁ now₂ lat lon pt hl hmiss hsup hok hfresh
    refine ⟨getCurrent_miss_primary_ok svc store now₁ lat lon pt hl hmiss
      hsup hok, ?_⟩
    apply getCurrent_cache_hit svc _ now₂ lat lon
      (now₁ + WeatherService.CURRENT_TTL) pt hl _ hfresh
    exact dictGet_dictSet_self store
      (WeatherService.cacheKey "current" lat lon none)
      (now₁ + WeatherService.CURRENT_TTL, pt)
  · intro providers cache ttl now lat lon payload h
    exact get_weather_cache_hit providers cache ttl now lat lon payload h

/-- Witness for C2: a concrete unexpired entry is served from the cache
with an empty invocation trace, in both orchestrators. -/
theorem claim_C2_witness :
    WeatherService.getCurrent
        ⟨none, ⟨"a", true, .error (.providerError "x")⟩,
         ⟨"b", true, .error (.providerError "y")⟩⟩
        [(WeatherService.cacheKey "current" 0 0 none,
          (5, ⟨⟨0, 0⟩, none, none, none, none, "cached"⟩))] 3 0 0 =
      (.ok ⟨⟨0, 0⟩, none, none, none, none, "cached"⟩,
       [(WeatherService.cacheKey "current" 0 0 none,
         (5, ⟨⟨0, 0⟩, none, none, none, none, "cached"⟩))], []) ∧
    WeatherServiceBridge.get_weather [⟨"p", .error "down"⟩]
        [(⟨round4 0, round4 0⟩, (⟨0, 0, 0, 0, 0, 0, "s", 0⟩, none))] 600 0 0 0 =
      (.ok (WeatherServiceBridge.deserializePoint ⟨0, 0, 0, 0, 0, 0, "s", 0⟩),
       [(⟨round4 0, round4 0⟩, (⟨0, 0, 0, 0, 0, 0, "s", 0⟩, none))], []) := by
  constructor
  · exact claim_C2_cache_hit_no_outbound.1
      ⟨none, ⟨"a", true, .error (.providerError "x")⟩,
       ⟨"b", true, .error (.providerError "y")⟩⟩
      [(WeatherService.cacheKey "current" 0 0 none,
        (5, ⟨⟨0, 0⟩, none, none, none, none, "cached"⟩))] 3 0 0 5
      ⟨⟨0, 0⟩, none, none, none, none, "cached"⟩
      rfl (by simp [dictGet]) (by decide)
  · exact claim_C2_cache_hit_no_outbound.2.2 [⟨"p", .error "down"⟩]
      [(⟨round4 0, round4 0⟩, (⟨0, 0, 0, 0, 0, 0, "s", 0⟩, none))] 600 0 0 0
      ⟨0, 0, 0, 0, 0, 0, "s", 0⟩
      (by simp [LocMemCache.get, dictGet])

/-- Claim C5: a configured local gate that reports fresh for the kind and
resolves successfully short-circuits get_current: its point is returned,
the cache store is neither read nor written (it is returned unchanged), and
no remote provider is invoked. -/
theorem claim_C5_local_override_precedence (svc : WeatherService)
    (s : LocalStation) (f : String → Bool) (pt : CoreWeatherPoint)
    (store : CoreStore) (now lat lon : ℚ)
    (hls : svc.local_station = some s)
    (hf : s.is_fresh = some f) (hfr : f "current" = true)
    (hcur : s.current = some (.ok pt)) :
    WeatherService.getCurrent svc store now lat lon = (.ok pt, store, []) := by
  have hl : WeatherService.tryLocal svc.local_station = some pt := by
    rw [hls]
    simp [WeatherService.tryLocal, hf, hfr, LocalStation.callCurrent, hcur]
  unfold WeatherService.getCurrent
  rw [hl]

/-- Witness for C5: a fresh local station preempts failing remote
providers and an unexpired cache entry alike. -/
theorem claim_C5_witness :
    WeatherService.getCurrent
        ⟨some ⟨some (fun _ => true),
               some (.ok ⟨⟨7, 0⟩, none, none, none, none, "local"⟩)⟩,
         ⟨"a", true, .ok ⟨⟨0, 0⟩, none, none, none, none, "a"⟩⟩,
         ⟨"b", true, .ok ⟨⟨0, 0⟩, none, none, none, none, "b"⟩⟩⟩
        [(WeatherService.cacheKey "current" 0 0 none,
          (5, ⟨⟨0, 0⟩, none, none, none, none, "cached"⟩))] 3 0 0 =
      (.ok ⟨⟨7, 0⟩, none, none, none, none, "local"⟩,
       [(WeatherService.cacheKey "current" 0 0 none,
         (5, ⟨⟨0, 0⟩, none, none, none, none, "cached"⟩))], []) := by
  exact claim_C5_local_override_precedence
    ⟨some ⟨some (fun _ => true),
           some (.ok ⟨⟨7, 0⟩, none, none, none, none, "local"⟩)⟩,
     ⟨"a", true, .ok ⟨⟨0, 0⟩, none, none, none, none, "a"⟩⟩,
     ⟨"b", true, .ok ⟨⟨0, 0⟩, none, none, none, none, "b"⟩⟩⟩
    ⟨some (fun _ => true),
     some (.ok ⟨⟨7, 0⟩, none, none, none, none, "local"⟩)⟩
    (fun _ => true) ⟨⟨7, 0⟩, none, none, none, none, "local"⟩
    [(WeatherService.cacheKey "current" 0 0 none,
      (5, ⟨⟨0, 0⟩, none, none, none, none, "cached"⟩))] 3 0 0
    rfl rfl rfl rfl

/-- Every error the standalone loop lets out is either the aggregate
ProviderError raised after exhaustion, or a non-ProviderError exception of
one of the invoked providers that escaped the two except clauses. -/
lemma fetchWithFallbackExc_error_inv (providers : List PyProvider)
    (f : PyExc)
    (h : (WeatherService.fetchWithFallbackExc providers).2 = .error f) :
    f = .providerError "all providers failed" ∨
      (f.isProviderError = false ∧ ∃ p ∈ providers, p.result = .error f) := by
  induction providers with
  | nil =>
      simp [WeatherService.fetchWithFallbackExc] at h
      exact Or.inl h.symm
  | cons p rest ih =>
      by_cases hsup : p.supports = true
      · cases hres : p.result with
        | ok pt =>
            simp [WeatherService.fetchWithFallbackExc, hsup, hres] at h
        | error e =>
            by_cases hpe : e.isProviderError = true
            · have h2 : (WeatherService.fetchWithFallbackExc rest).2 =
                  .error f := by
                simpa [WeatherService.fetchWithFallbackExc, hsup, hres, hpe]
                  using h
              rcases ih h2 with h3 | ⟨h4, q, hq, hr⟩
              · exact Or.inl h3
              · exact Or.inr ⟨h4, q, List.mem_cons_of_mem p hq, hr⟩
            · have hef : e = f := by
                simpa [WeatherService.fetchWithFallbackExc, hsup, hres, hpe]
                  using h
              refine Or.inr ⟨?_, p, List.mem_cons_self p rest, ?_⟩
              · rw [← hef]
                simpa using hpe
              · rw [hres, hef]
      · have h2 : (WeatherService.fetchWithFallbackExc rest).2 = .error f := by
          simpa [WeatherService.fetchWithFallbackExc, if_neg hsup] using h
        rcases ih h2 with h3 | ⟨h4, q, hq, hr⟩
        · exact Or.inl h3
        · exact Or.inr ⟨h4, q, List.mem_cons_of_mem p hq, hr⟩

/-- Counterexample to C8 as stated: an adapter exception outside the
ProviderError hierarchy (here the ValueError from int(obs_time) on a
malformed-but-valid-JSON Yandex payload) is not matched by the two except
clauses of _fetch_with_fallback: it escapes the engine as that individual
error — not the aggregate — and the next provider, which would succeed, is
never invoked. -/
theorem claim_C8_counterexample :
    WeatherService.fetchWithFallbackExc
        [⟨"yandex", true,
          .error (.otherExc "ValueError" "invalid literal for int")⟩,
         ⟨"open-meteo", true,
          .ok ⟨⟨0, 0⟩, none, none, none, none, "open-meteo:current"⟩⟩] =
      (["yandex"], .error (.otherExc "ValueError" "invalid literal for int")) ∧
    (PyExc.otherExc "ValueError" "invalid literal for int") ≠
      .providerError "all providers failed" ∧
    (⟨"open-meteo", true,
      .ok ⟨⟨0, 0⟩, none, none, none, none, "open-meteo:current"⟩⟩ :
        PyProvider).result =
      .ok ⟨⟨0, 0⟩, none, none, none, none, "open-meteo:current"⟩ := by
  refine ⟨rfl, by simp, rfl⟩

/-- Claim C8, amended: in the standalone orchestrator exactly the
ProviderError hierarchy (quota, transient and malformed signals raised as
QuotaExceeded or ProviderError) is caught at the failing provider's turn
with the loop continuing, while an adapter exception outside that hierarchy
escapes the loop at once as that individual error; so what crosses the
standalone engine boundary is the aggregate error or such an escaped
exception, and nothing else.  The bridge orchestrator catches every
exception and continues, and the only failure it emits is the aggregate
error. -/
theorem claim_C8_error_containment :
    (∀ (p : PyProvider) (rest : List PyProvider) (e : PyExc),
      p.supports = true → p.result = .error e → e.isProviderError = true →
      WeatherService.fetchWithFallbackExc (p :: rest) =
        (p.source :: (WeatherService.fetchWithFallbackExc rest).1,
         (WeatherService.fetchWithFallbackExc rest).2)) ∧
    (∀ (p : PyProvider) (rest : List PyProvider) (e : PyExc),
      p.supports = true → p.result = .error e → e.isProviderError = false →
      WeatherService.fetchWithFallbackExc (p :: rest) =
        ([p.source], .error e)) ∧
    (∀ (providers : List PyProvider) (f : PyExc),
      (WeatherService.fetchWithFallbackExc providers).2 = .error f →
      f = .providerError "all providers failed" ∨
        (f.isProviderError = false ∧ ∃ p ∈ providers, p.result = .error f)) ∧
    (∀ (p : BridgeProvider) (rest : List BridgeProvider)
        (errs : List String) (e : String),
      p.result = .error e →
      WeatherServiceBridge.fallbackLoop errs (p :: rest) =
        (p.name :: (WeatherServiceBridge.fallbackLoop (errs ++ [e]) rest).1,
         (WeatherServiceBridge.fallbackLoop (errs ++ [e]) rest).2)) ∧
    (∀ (providers : List BridgeProvider) (errs : List String)
        (f : WeatherServiceError),
      (WeatherServiceBridge.fallbackLoop errs providers).2 = .error f →
      f.message = "All weather providers failed") := by
  refine ⟨?_, ?_, fetchWithFallbackExc_error_inv, fallbackLoop_skip, ?_⟩
  · intro p rest e hsup he hpe
    simp [WeatherService.fetchWithFallbackExc, hsup, he, hpe]
  · intro p rest e hsup he hpe
    simp [WeatherService.fetchWithFallbackExc, hsup, he, hpe]
  · intro providers errs f h
    rw [fallbackLoop_error_inv providers errs f h]

/-- Witness for the amended C8: a quota failure is caught and skipped, a
ValueError escapes at once, an exhausted standalone loop emits the
aggregate, and the bridge catches everything. -/
theorem claim_C8_witness :
    WeatherService.fetchWithFallbackExc
        [⟨"a", true, .error (.quotaExceeded "q")⟩] =
      (["a"], .error (.providerError "all providers failed")) ∧
    WeatherService.fetchWithFallbackExc
        [⟨"b", true, .error (.otherExc "ValueError" "bad")⟩,
         ⟨"c", true, .ok ⟨⟨0, 0⟩, none, none, none, none, "c"⟩⟩] =
      (["b"], .error (.otherExc "ValueError" "bad")) ∧
    ((PyExc.providerError "all providers failed") =
        .providerError "all providers failed" ∨
      ((PyExc.providerError "all providers failed").isProviderError = false ∧
        ∃ p ∈ ([] : List PyProvider),
          p.result = .error (.providerError "all providers failed"))) ∧
    WeatherServiceBridge.fallbackLoop [] [⟨"x", .error "http 500"⟩] =
      (["x"], .error ⟨"All weather providers failed", some "http 500"⟩) ∧
    (⟨"All weather providers failed", some "http 500"⟩ :
      WeatherServiceError).message = "All weather providers failed" := by
  refine ⟨?_, ?_, ?_, ?_, ?_⟩
  · exact claim_C8_error_containment.1 ⟨"a", true, .error (.quotaExceeded "q")⟩
      [] (.quotaExceeded "q") rfl rfl rfl
  · exact claim_C8_error_containment.2.1
      ⟨"b", true, .error (.otherExc "ValueError" "bad")⟩
      [⟨"c", true, .ok ⟨⟨0, 0⟩, none, none, none, none, "c"⟩⟩]
      (.otherExc "ValueError" "bad") rfl rfl rfl
  · exact claim_C8_error_containment.2.2.1 []
      (.providerError "all providers failed") rfl
  · exact claim_C8_error_containment.2.2.2.1 ⟨"x", .error "http 500"⟩ [] []
      "http 500" rfl
  · exact claim_C8_error_containment.2.2.2.2 [⟨"x", .error "http 500"⟩] []
      ⟨"All weather providers failed", some "http 500"⟩ rfl

/-- A station whose current method raises inside the try block, while its
is_fresh probe returns normally, is treated as absent local data. -/
lemma tryLocalExc_swallow (s : PyLocalStation) (e : PyExc)
    (hfr : s.is_fresh = none ∨
      ∃ f b, s.is_fresh = some f ∧ f "current" = .ok b)
    (hc : s.current = some (.error e)) :
    WeatherService.tryLocalExc (some s) = .ok none := by
  have hcall : s.callCurrent = none := by
    unfold PyLocalStation.callCurrent
    rw [hc]
  rcases hfr with hf | ⟨f, b, hf, hb⟩
  · simp [WeatherService.tryLocalExc, hf, hcall]
  · cases b
    · simp [WeatherService.tryLocalExc, hf, hb]
    · simp [WeatherService.tryLocalExc, hf, hb, hcall]

/-- A station whose is_fresh probe raises does so outside the try block of
_try_local: the exception escapes. -/
lemma tryLocalExc_fresh_raise (s : PyLocalStation)
    (f : String → Except PyExc Bool) (e : PyExc)
    (hf : s.is_fresh = some f) (hb : f "current" = .error e) :
    WeatherService.tryLocalExc (some s) = .error e := by
  simp [WeatherService.tryLocalExc, hf, hb]

/-- Counterexample to C9 as stated: an exception raised by the gate's
is_fresh check — which _try_local calls outside its try block — propagates
out of get_current and surfaces to the caller, and the outcome differs from
the resolution with no local source configured (which would return the
primary provider's point). -/
theorem claim_C9_counterexample :
    (WeatherService.getCurrentExc
        ⟨some ⟨some (fun _ => .error (.otherExc "RuntimeError" "gate crashed")),
               some (.ok ⟨⟨0, 0⟩, none, none, none, none, "local"⟩)⟩,
         ⟨"a", true, .ok ⟨⟨0, 0⟩, none, none, none, none, "a"⟩⟩,
         ⟨"b", true, .ok ⟨⟨0, 0⟩, none, none, none, none, "b"⟩⟩⟩
        [] 0 0 0).1 =
      .error (.otherExc "RuntimeError" "gate crashed") ∧
    (WeatherService.getCurrentExc
        ⟨none, ⟨"a", true, .ok ⟨⟨0, 0⟩, none, none, none, none, "a"⟩⟩,
         ⟨"b", true, .ok ⟨⟨0, 0⟩, none, none, none, none, "b"⟩⟩⟩
        [] 0 0 0).1 =
      .ok ⟨⟨0, 0⟩, none, none, none, none, "a"⟩ ∧
    (Except.error (.otherExc "RuntimeError" "gate crashed") :
        Except PyExc CoreWeatherPoint) ≠
      .ok ⟨⟨0, 0⟩, none, none, none, none, "a"⟩ := by
  refine ⟨rfl, rfl, by simp⟩

/-- Claim C9, amended: an exception the local resolve method raises inside
the try block of _try_local is swallowed and resolution proceeds exactly as
with no local station configured; an exception raised by the gate's
is_fresh check, which _try_local invokes outside the try block, propagates
out of get_current to the caller. -/
theorem claim_C9_local_failure_swallowed :
    (∀ (svc : WeatherServiceExc) (s : PyLocalStation) (e : PyExc)
        (store : CoreStore) (now lat lon : ℚ),
      svc.local_station = some s →
      (s.is_fresh = none ∨
        ∃ f b, s.is_fresh = some f ∧ f "current" = .ok b) →
      s.current = some (.error e) →
      WeatherService.getCurrentExc svc store now lat lon =
        WeatherService.getCurrentExc ⟨none, svc.primary, svc.fallback⟩
          store now lat lon) ∧
    (∀ (svc : WeatherServiceExc) (s : PyLocalStation)
        (f : String → Except PyExc Bool) (e : PyExc)
        (store : CoreStore) (now lat lon : ℚ),
      svc.local_station = some s →
      s.is_fresh = some f → f "current" = .error e →
      WeatherService.getCurrentExc svc store now lat lon =
        (.error e, store, [])) := by
  constructor
  · intro svc s e store now lat lon hls hfr hc
    have h1 : WeatherService.tryLocalExc svc.local_station = .ok none := by
      rw [hls]
      exact tryLocalExc_swallow s e hfr hc
    unfold WeatherService.getCurrentExc
    rw [h1]
    rfl
  · intro svc s f e store now lat lon hls hf hb
    have h1 : WeatherService.tryLocalExc svc.local_station = .error e := by
      rw [hls]
      exact tryLocalExc_fresh_raise s f e hf hb
    unfold WeatherService.getCurrentExc
    rw [h1]

/-- Witness for the amended C9: a station whose resolve raises behaves as
no station at all, and a station whose is_fresh raises surfaces that
exception. -/
theorem claim_C9_witness :
    WeatherService.getCurrentExc
        ⟨some ⟨some (fun _ => .ok true),
               some (.error (.otherExc "OSError" "sensor offline"))⟩,
         ⟨"a", true, .ok ⟨⟨0, 0⟩, none, none, none, none, "a"⟩⟩,
         ⟨"b", true, .error (.providerError "y")⟩⟩ [] 0 0 0 =
      WeatherService.getCurrentExc
        ⟨none, ⟨"a", true, .ok ⟨⟨0, 0⟩, none, none, none, none, "a"⟩⟩,
         ⟨"b", true, .error (.providerError "y")⟩⟩ [] 0 0 0 ∧
    WeatherService.getCurrentExc
        ⟨some ⟨some (fun _ => .error (.otherExc "RuntimeError" "boom")),
               none⟩,
         ⟨"a", true, .ok ⟨⟨0, 0⟩, none, none, none, none, "a"⟩⟩,
         ⟨"b", true, .error (.providerError "y")⟩⟩ [] 7 0 0 =
      (.error (.otherExc "RuntimeError" "boom"), [], []) := by
  constructor
  · exact claim_C9_local_failure_swallowed.1
      ⟨some ⟨some (fun _ => .ok true),
             some (.error (.otherExc "OSError" "sensor offline"))⟩,
       ⟨"a", true, .ok ⟨⟨0, 0⟩, none, none, none, none, "a"⟩⟩,
       ⟨"b", true, .error (.providerError "y")⟩⟩
      ⟨some (fun _ => .ok true),
       some (.error (.otherExc "OSError" "sensor offline"))⟩
      (.otherExc "OSError" "sensor offline") [] 0 0 0 rfl
      (Or.inr ⟨fun _ => .ok true, true, rfl, rfl⟩) rfl
  · exact claim_C9_local_failure_swallowed.2
      ⟨some ⟨some (fun _ => .error (.otherExc "RuntimeError" "boom")),
             none⟩,
       ⟨"a", true, .ok ⟨⟨0, 0⟩, none, none, none, none, "a"⟩⟩,
       ⟨"b", true, .error (.providerError "y")⟩⟩
      ⟨some (fun _ => .error (.otherExc "RuntimeError" "boom")), none⟩
      (fun _ => .error (.otherExc "RuntimeError" "boom"))
      (.otherExc "RuntimeError" "boom") [] 7 0 0 rfl rfl rfl

/-- Claim C10: deserializing the serialized form of a weather point with an
aware observation timestamp preserves latitude, longitude, temperature_c,
pressure_hpa, wind_speed_ms, precipitation_mm and source, the serialized
form stores the timestamp as the UTC instant of the original, and the
deserialized observed_at denotes that same instant expressed in UTC
(offset zero).  AwareDatetime models only timezone-aware datetimes, which
is the hypothesis of the claim. -/
theorem claim_C10_serialize_roundtrip (p : BridgeWeatherPoint) :
    WeatherServiceBridge.deserializePoint
        (WeatherServiceBridge.serializePoint p) =
      ⟨p.latitude, p.longitude, p.temperature_c, p.pressure_hpa,
       p.wind_speed_ms, p.precipitation_mm, p.source,
       ⟨p.observed_at.epochMicro, 0⟩⟩ ∧
    (WeatherServiceBridge.serializePoint p).observed_at =
      p.observed_at.epochMicro ∧
    (WeatherServiceBridge.deserializePoint
      (WeatherServiceBridge.serializePoint p)).latitude = p.latitude ∧
    (WeatherServiceBridge.deserializePoint
      (WeatherServiceBridge.serializePoint p)).longitude = p.longitude ∧
    (WeatherServiceBridge.deserializePoint
      (WeatherServiceBridge.serializePoint p)).temperature_c =
      p.temperature_c ∧
    (WeatherServiceBridge.deserializePoint
      (WeatherServiceBridge.serializePoint p)).pressure_hpa =
      p.pressure_hpa ∧
    (WeatherServiceBridge.deserializePoint
      (WeatherServiceBridge.serializePoint p)).wind_speed_ms =
      p.wind_speed_ms ∧
    (WeatherServiceBridge.deserializePoint
      (WeatherServiceBridge.serializePoint p)).precipitation_mm =
      p.precipitation_mm ∧
    (WeatherServiceBridge.deserializePoint
      (WeatherServiceBridge.serializePoint p)).source = p.source ∧
    (WeatherServiceBridge.deserializePoint
      (WeatherServiceBridge.serializePoint p)).observed_at.epochMicro =
      p.observed_at.epochMicro ∧
    (WeatherServiceBridge.deserializePoint
      (WeatherServiceBridge.serializePoint p)).observed_at.offsetMin = 0 :=
  ⟨rfl, rfl, rfl, rfl, rfl, rfl, rfl, rfl, rfl, rfl, rfl⟩

/-- On a bridge cache miss with a succeeding provider loop, get_weather
returns the point, writes it serialized to the cache and records the loop
trace. -/
lemma get_weather_miss_ok (providers : List BridgeProvider)
    (cache : BridgeStore) (ttl now lat lon : ℚ) (pt : BridgeWeatherPoint)
    (hmiss : (LocMemCache.get cache now ⟨round4 lat, round4 lon⟩).1 = none)
    (hok : (WeatherServiceBridge.fallbackLoop [] providers).2 = .ok pt) :
    WeatherServiceBridge.get_weather providers cache ttl now lat lon =
      (.ok pt,
       LocMemCache.set (LocMemCache.get cache now ⟨round4 lat, round4 lon⟩).2
         now ⟨round4 lat, round4 lon⟩
         (WeatherServiceBridge.serializePoint pt) (some ttl),
       (WeatherServiceBridge.fallbackLoop [] providers).1) := by
  unfold WeatherServiceBridge.get_weather
  simp only [hmiss, hok]

/-- Counterexample to C3 as stated: when the entry under the fingerprint
has already expired, the failed resolution still mutates the cache — the
lookup deletes the expired entry, so the store after the call (empty) is
not the store before it (one entry). -/
theorem claim_C3_counterexample :
    (WeatherService.getCurrent
        ⟨none, ⟨"p1", true, .error (.providerError "e1")⟩,
         ⟨"p2", true, .error (.providerError "e2")⟩⟩
        [(WeatherService.cacheKey "current" 0 0 none,
          (0, ⟨⟨0, 0⟩, none, none, none, none, "old"⟩))] 1 0 0).1 =
      .error ⟨"all providers failed", none⟩ ∧
    (WeatherService.getCurrent
        ⟨none, ⟨"p1", true, .error (.providerError "e1")⟩,
         ⟨"p2", true, .error (.providerError "e2")⟩⟩
        [(WeatherService.cacheKey "current" 0 0 none,
          (0, ⟨⟨0, 0⟩, none, none, none, none, "old"⟩))] 1 0 0).2.1 =
      [] ∧
    ([(WeatherService.cacheKey "current" 0 0 none,
       (0, ⟨⟨0, 0⟩, none, none, none, none, "old"⟩))] : CoreStore) ≠ [] := by
  have hget : WeatherCache.get
      [(WeatherService.cacheKey "current" 0 0 none,
        ((0 : ℚ), (⟨⟨0, 0⟩, none, none, none, none, "old"⟩ : CoreWeatherPoint)))]
      (1 : ℚ) (WeatherService.cacheKey "current" 0 0 none) = (none, []) := by
    norm_num [WeatherCache.get, dictGet, dictPop, List.filter]
  have h := getCurrent_all_fail
    ⟨none, ⟨"p1", true, .error (.providerError "e1")⟩,
     ⟨"p2", true, .error (.providerError "e2")⟩⟩
    [(WeatherService.cacheKey "current" 0 0 none,
      (0, ⟨⟨0, 0⟩, none, none, none, none, "old"⟩))] 1 0 0
    rfl (by rw [hget]) (Or.inr ⟨_, rfl⟩) (Or.inr ⟨_, rfl⟩)
  refine ⟨h.1, ?_, by simp⟩
  rw [h.2, hget]

/-- Claim C3, amended: when all providers fail, both orchestrators raise
the aggregate error and never write to the cache; the store after the call
is exactly the store left by the initial lookup, which equals the store
before the call unless that lookup discovered (and so deleted) an expired
entry under the fingerprint. -/
theorem claim_C3_all_fail_no_cache_write :
    (∀ (svc : WeatherService) (store : CoreStore) (now lat lon : ℚ),
      WeatherService.tryLocal svc.local_station = none →
      (WeatherCache.get store now
        (WeatherService.cacheKey "current" lat lon none)).1 = none →
      (svc.primary.supports = false ∨ ∃ e, svc.primary.result = .error e) →
      (svc.fallback.supports = false ∨ ∃ e, svc.fallback.result = .error e) →
      (WeatherService.getCurrent svc store now lat lon).1 =
        .error ⟨"all providers failed", none⟩ ∧
      (WeatherService.getCurrent svc store now lat lon).2.1 =
        (WeatherCache.get store now
          (WeatherService.cacheKey "current" lat lon none)).2 ∧
      ((∀ e v,
          dictGet store (WeatherService.cacheKey "current" lat lon none) =
            some (e, v) → ¬ e < now) →
        (WeatherService.getCurrent svc store now lat lon).2.1 = store)) ∧
    (∀ (providers : List BridgeProvider) (cache : BridgeStore)
        (ttl now lat lon : ℚ),
      (∀ p ∈ providers, ∃ e, p.result = .error e) →
      (LocMemCache.get cache now ⟨round4 lat, round4 lon⟩).1 = none →
      (∃ f, (WeatherServiceBridge.get_weather providers cache ttl
        now lat lon).1 = .error f) ∧
      (WeatherServiceBridge.get_weather providers cache ttl now lat lon).2.1 =
        (LocMemCache.get cache now ⟨round4 lat, round4 lon⟩).2) := by
  constructor
  · intro svc store now lat lon hl hmiss hp hq
    have h := getCurrent_all_fail svc store now lat lon hl hmiss hp hq
    refine ⟨h.1, h.2, fun hne => ?_⟩
    rw [h.2]
    exact WeatherCache.get_store_noexp store now _ hne
  · intro providers cache ttl now lat lon hall hmiss
    have herr := fallbackLoop_all_fail providers [] hall
    have hgw := get_weather_miss_err providers cache ttl now lat lon _
      hmiss herr
    exact ⟨⟨_, by rw [hgw]⟩, by rw [hgw]⟩

/-- Witness for the amended C3: with an empty cache and two failing
providers, both orchestrators raise and the store stays empty. -/
theorem claim_C3_witness :
    (WeatherService.getCurrent
        ⟨none, ⟨"p1", true, .error (.quotaExceeded "q")⟩,
         ⟨"p2", true, .error (.providerError "e2")⟩⟩ [] 0 0 0).1 =
      .error ⟨"all providers failed", none⟩ ∧
    (WeatherService.getCurrent
        ⟨none, ⟨"p1", true, .error (.quotaExceeded "q")⟩,
         ⟨"p2", true, .error (.providerError "e2")⟩⟩ [] 0 0 0).2.1 =
      ([] : CoreStore) ∧
    (∃ f, (WeatherServiceBridge.get_weather [⟨"x", .error "boom"⟩]
      [] 600 0 0 0).1 = .error f) ∧
    (WeatherServiceBridge.get_weather [⟨"x", .error "boom"⟩]
      [] 600 0 0 0).2.1 = ([] : BridgeStore) := by
  have h1 := claim_C3_all_fail_no_cache_write.1
    ⟨none, ⟨"p1", true, .error (.quotaExceeded "q")⟩,
     ⟨"p2", true, .error (.providerError "e2")⟩⟩ [] 0 0 0
    rfl rfl (Or.inr ⟨_, rfl⟩) (Or.inr ⟨_, rfl⟩)
  have h2 := claim_C3_all_fail_no_cache_write.2 [⟨"x", .error "boom"⟩]
    [] 600 0 0 0
    (by
      intro p hp
      rw [List.mem_singleton] at hp
      subst hp
      exact ⟨"boom", rfl⟩)
    rfl
  exact ⟨h1.1, h1.2.2 (fun e v hh => by simp [dictGet] at hh), h2.1, h2.2⟩

/-- Counterexample to C4 as stated: the standalone orchestrator raises its
aggregate error as a bare ProviderError carrying no reference to any
underlying provider error — here the first underlying error was a quota
failure, yet the raised cause is None. -/
theorem claim_C4_counterexample :
    (WeatherService.fetchWithFallback
        [⟨"p1", true, .error (.quotaExceeded "quota")⟩,
         ⟨"p2", true, .error (.providerError "http 500")⟩]).2 =
      .error ⟨"all providers failed", none⟩ ∧
    (⟨"all providers failed", none⟩ : AggFailure).cause ≠
      some (.quotaExceeded "quota") := by
  constructor
  · rfl
  · simp

/-- Claim C4, amended: the bridge orchestrator raises its aggregate error
from the first collected provider error, while the standalone orchestrator
raises a bare aggregate error that references no underlying error. -/
theorem claim_C4_aggregate_cause :
    (∀ (providers : List BridgeProvider) (cache : BridgeStore)
        (ttl now lat lon : ℚ) (f : WeatherServiceError),
      (WeatherServiceBridge.get_weather providers cache ttl now lat lon).1 =
        .error f →
      f.message = "All weather providers failed" ∧
      f.cause = (providers.filterMap BridgeProvider.errMsg).head?) ∧
    (∀ (providers : List Provider) (f : AggFailure),
      (WeatherService.fetchWithFallback providers).2 = .error f →
      f.cause = none) := by
  constructor
  · intro providers cache ttl now lat lon f h
    cases hg : (LocMemCache.get cache now ⟨round4 lat, round4 lon⟩).1 with
    | some payload =>
        rw [get_weather_cache_hit providers cache ttl now lat lon payload hg]
          at h
        simp at h
    | none =>
        cases hr : (WeatherServiceBridge.fallbackLoop [] providers).2 with
        | ok pt =>
            rw [get_weather_miss_ok providers cache ttl now lat lon pt hg hr]
              at h
            simp at h
        | error f2 =>
            rw [get_weather_miss_err providers cache ttl now lat lon f2 hg hr]
              at h
            simp only [Except.error.injEq] at h
            subst h
            have := fallbackLoop_error_inv providers [] f2 hr
            simp only [List.nil_append] at this
            rw [this]
            exact ⟨rfl, rfl⟩
  · intro providers f h
    rw [fetchWithFallback_error_inv providers f h]

/-- Witness for the amended C4: two failing bridge providers produce the
aggregate error caused by the first failure, and an exhausted standalone
pair produces a cause-free aggregate error. -/
theorem claim_C4_witness :
    (WeatherServiceBridge.get_weather
        [⟨"x", .error "first"⟩, ⟨"y", .error "second"⟩] [] 600 0 0 0).1 =
      .error ⟨"All weather providers failed", some "first"⟩ ∧
    (⟨"All weather providers failed", some "first"⟩ :
        WeatherServiceError).message = "All weather providers failed" ∧
    (⟨"All weather providers failed", some "first"⟩ :
        WeatherServiceError).cause =
      (([⟨"x", .error "first"⟩, ⟨"y", .error "second"⟩] :
        List BridgeProvider).filterMap BridgeProvider.errMsg).head? ∧
    (⟨"all providers failed", none⟩ : AggFailure).cause = none := by
  have hh : (WeatherServiceBridge.get_weather
      [⟨"x", .error "first"⟩, ⟨"y", .error "second"⟩] [] 600 0 0 0).1 =
      .error ⟨"All weather providers failed", some "first"⟩ := rfl
  have hc := claim_C4_aggregate_cause.1
    [⟨"x", .error "first"⟩, ⟨"y", .error "second"⟩] [] 600 0 0 0
    ⟨"All weather providers failed", some "first"⟩ hh
  have hs := claim_C4_aggregate_cause.2 [] ⟨"all providers failed", none⟩ rfl
  exact ⟨hh, hc.1, hc.2, hs⟩

/-- Counterexample to C6 as stated: LocMemCache.set with a ttl of 0 stores
the entry with no expiry at all, so a read far past the claimed expiry
(write time + 0) still returns the value instead of treating the entry as
absent. -/
theorem claim_C6_counterexample :
    (0 : ℚ) + 0 < 1000 ∧
    (LocMemCache.get
        (LocMemCache.set ([] : LocMemCache.Store String ℕ) 0 "k" 7 (some 0))
        1000 "k").1 = some 7 := by
  constructor
  · norm_num
  · rfl

/-- Claim C6, amended: WeatherCache records expiry as write time plus ttl,
serves the entry while the read clock has not passed the expiry, and on an
expired read reports the entry absent and deletes it; LocMemCache behaves
the same for a nonzero ttl except that its expiry check also fires at the
exact boundary, while a falsy ttl (0 or None) stores an entry with no
expiry that every later read returns. -/
theorem claim_C6_ttl_cache_semantics :
    (∀ (K V : Type) [DecidableEq K] (store : WeatherCache.Store K V)
        (now ttl now₂ : ℚ) (k : K) (v : V),
      (¬ now + ttl < now₂ →
        WeatherCache.get (WeatherCache.set store now k v ttl) now₂ k =
          (some v, WeatherCache.set store now k v ttl)) ∧
      (now + ttl < now₂ →
        (WeatherCache.get (WeatherCache.set store now k v ttl) now₂ k).1 =
          none ∧
        dictGet
          (WeatherCache.get (WeatherCache.set store now k v ttl) now₂ k).2
          k = none)) ∧
    (∀ (K V : Type) [DecidableEq K] (store : LocMemCache.Store K V)
        (now t now₂ : ℚ) (k : K) (v : V), t ≠ 0 →
      (¬ now + t ≤ now₂ →
        LocMemCache.get (LocMemCache.set store now k v (some t)) now₂ k =
          (some v, LocMemCache.set store now k v (some t))) ∧
      (now + t ≤ now₂ →
        (LocMemCache.get (LocMemCache.set store now k v (some t)) now₂ k).1 =
          none ∧
        dictGet
          (LocMemCache.get (LocMemCache.set store now k v (some t)) now₂ k).2
          k = none)) ∧
    (∀ (K V : Type) [DecidableEq K] (store : LocMemCache.Store K V)
        (now now₂ : ℚ) (k : K) (v : V),
      LocMemCache.get (LocMemCache.set store now k v (some 0)) now₂ k =
        (some v, LocMemCache.set store now k v (some 0)) ∧
      LocMemCache.get (LocMemCache.set store now k v none) now₂ k =
        (some v, LocMemCache.set store now k v none)) := by
  refine ⟨?_, ?_, ?_⟩
  · intro K V _ store now ttl now₂ k v
    have hd := dictGet_dictSet_self store k ((now + ttl : ℚ), v)
    constructor
    · intro h
      simp [WeatherCache.get, WeatherCache.set, hd, h]
    · intro h
      refine ⟨?_, ?_⟩
      · simp [WeatherCache.get, WeatherCache.set, hd, h]
      · simp [WeatherCache.get, WeatherCache.set, hd, h,
          dictGet_dictPop_self]
  · intro K V _ store now t now₂ k v ht
    have hset : LocMemCache.set store now k v (some t) =
        dictSet store k (v, some (now + t)) := by
      simp [LocMemCache.set, ht]
    have hd := dictGet_dictSet_self store k (v, some (now + t))
    constructor
    · intro h
      rw [hset]
      simp [LocMemCache.get, hd, h]
    · intro h
      rw [hset]
      refine ⟨?_, ?_⟩
      · simp [LocMemCache.get, hd, h]
      · simp [LocMemCache.get, hd, h, dictGet_dictPop_self]
  · intro K V _ store now now₂ k v
    have hset0 : LocMemCache.set store now k v (some 0) =
        dictSet store k (v, none) := by
      simp [LocMemCache.set]
    have hsetn : LocMemCache.set store now k v none =
        dictSet store k (v, none) := by
      simp [LocMemCache.set]
    constructor
    · rw [hset0]
      simp [LocMemCache.get, dictGet_dictSet_self store k (v, none)]
    · rw [hsetn]
      simp [LocMemCache.get, dictGet_dictSet_self store k (v, none)]

/-- Witness for the amended C6: a fresh read returns the just-written value
in both caches, and an expired WeatherCache read deletes the entry. -/
theorem claim_C6_witness :
    (¬ (0 : ℚ) + 600 < 0 ∧
      WeatherCache.get
          (WeatherCache.set ([] : WeatherCache.Store String ℕ) 0 "k" 7 600)
          0 "k" =
        (some 7, WeatherCache.set ([] : WeatherCache.Store String ℕ)
          0 "k" 7 600)) ∧
    ((0 : ℚ) + 600 < 1000 ∧
      (WeatherCache.get
          (WeatherCache.set ([] : WeatherCache.Store String ℕ) 0 "k" 7 600)
          1000 "k").1 = none) ∧
    ((600 : ℚ) ≠ 0 ∧ ¬ (0 : ℚ) + 600 ≤ 0 ∧
      LocMemCache.get
          (LocMemCache.set ([] : LocMemCache.Store String ℕ) 0 "k" 7
            (some 600)) 0 "k" =
        (some 7, LocMemCache.set ([] : LocMemCache.Store String ℕ) 0 "k" 7
          (some 600))) := by
  refine ⟨⟨by norm_num, ?_⟩, ⟨by norm_num, ?_⟩, by norm_num, by norm_num, ?_⟩
  · exact (claim_C6_ttl_cache_semantics.1 String ℕ [] 0 600 0 "k" 7).1
      (by norm_num)
  · exact ((claim_C6_ttl_cache_semantics.1 String ℕ [] 0 600 1000 "k" 7).2
      (by norm_num)).1
  · exact ((claim_C6_ttl_cache_semantics.2.1 String ℕ [] 0 600 0 "k" 7
      (by norm_num)).1 (by norm_num))

/-- Counterexample to C7 as stated: the adapters round converted values to
two decimals, so the wind-speed output is not exactly w / 3.6 — at
w = 1 km/h the code yields 0.28, while 1 / 3.6 is not expressible in two
decimals. -/
theorem claim_C7_counterexample :
    _kmh_to_ms (some 1) = some (7 / 25) ∧
    ((7 : ℚ) / 25) ≠ 1 / (36 / 10) := by
  constructor
  · norm_num [_kmh_to_ms, round2, round_eq]
  · norm_num

/-- Claim C7, amended: every conversion lands within 0.01 of the exact
value (the code rounds to two decimals): mmHg to hPa within 0.01 of
p * 1.33322 with 750 mapping to 999.92 exactly, Pa to hPa within 0.01 of
p / 100, and km/h to m/s within 0.01 of w / 3.6 with 36 mapping to 10
exactly. -/
theorem claim_C7_unit_normalization :
    (∀ p : ℚ, ∃ q, _mmhg_to_hpa (some p) = some q ∧
      |q - p * (133322 / 100000)| ≤ 1 / 100) ∧
    (∀ p : ℚ, ∃ q,
      YandexWeatherProvider.extract_pressure ⟨none, some p, none⟩ = some q ∧
      |q - p / 100| ≤ 1 / 100) ∧
    (∀ w : ℚ, ∃ q, _kmh_to_ms (some w) = some q ∧
      |q - w / (36 / 10)| ≤ 1 / 100) ∧
    _mmhg_to_hpa (some 750) = some (99992 / 100) ∧
    |(99992 : ℚ) / 100 - 750 * (133322 / 100000)| ≤ 1 / 100 ∧
    _kmh_to_ms (some 36) = some 10 := by
  refine ⟨?_, ?_, ?_, ?_, ?_, ?_⟩
  · intro p
    exact ⟨round2 (p * (133322 / 100000)), rfl,
      le_trans (round2_close (p * (133322 / 100000))) (by norm_num)⟩
  · intro p
    exact ⟨round2 (p / 100), rfl,
      le_trans (round2_close (p / 100)) (by norm_num)⟩
  · intro w
    exact ⟨round2 (w / (36 / 10)), rfl,
      le_trans (round2_close (w / (36 / 10))) (by norm_num)⟩
  · norm_num [_mmhg_to_hpa, round2, round_eq]
  · rw [abs_sub_le_iff]
    constructor <;> norm_num
  · norm_num [_kmh_to_ms, round2, round_eq]
